import Mathlib

/-!
Verification development for the drf-stripe-subscription reconciliation layer.

This file shallowly embeds the package's data model and the operations of
`drf_stripe/stripe_api/customers.py`, `drf_stripe/stripe_api/subscriptions.py`,
`drf_stripe/stripe_webhooks/billing.py`, `drf_stripe/models.py` and
`drf_stripe/serializers.py`.  Django ORM state is modelled as explicit lists of
rows threaded through each operation; functions that the source wraps in
`@atomic` return `Except Err DB` (an error means the transaction rolled back
and no writes persisted), while non-transactional code returns the database
alongside the outcome so that partial writes remain observable.  Python
truthiness of nullable string columns is modelled explicitly (`none` and the
empty string are falsy).
-/

namespace DrfStripe

/-- Errors raised by the embedded operations, mirroring the exception classes
used in the source (`ValueError`, `CreatingNewUsersDisabledError`, the error
`stripe.Customer.retrieve` raises on an unknown id, Django's
`MultipleObjectsReturned` and `ObjectDoesNotExist` from `.get(...)`, and the
`ValueError` raised on a conflicting customer mapping). -/
inductive Err where
  | valueError
  | creatingNewUsersDisabled
  | stripeNoSuchCustomer
  | multipleObjectsReturned
  | objectDoesNotExist
  | conflictingCustomerId
  deriving Repr, DecidableEq

/-- A Django user row; only the primary key and the email attribute matter to
the embedded logic (`DJANGO_USER_EMAIL_FIELD` keeps its default `email`). -/
structure DjangoUser where
  id : Nat
  email : String
  deriving Repr, DecidableEq

/-- A `StripeUser` row (`drf_stripe/models.py`): one-to-one link from a Django
user (its primary key) to a nullable Stripe customer id. -/
structure StripeUserRow where
  userId : Nat
  customerId : Option String
  deriving Repr, DecidableEq

/-- A billing-account row shaped like `AbstractBillingAccount`
(`drf_stripe/models.py`): nullable Stripe customer id, nullable Stripe
subscription id and a nullable manager-user foreign key. -/
structure BillingAccountRow where
  pk : Nat
  stripeCustomerId : Option String
  stripeSubscriptionId : Option String
  managerUser : Option Nat
  deriving Repr, DecidableEq

/-- A `Subscription` row (`drf_stripe/models.py`): keyed by the remote
subscription id, with a nullable legacy `stripe_user` foreign key, the nullable
generic billing-account pair and the snapshot fields. -/
structure SubscriptionRow where
  subscriptionId : String
  stripeUser : Option Nat
  billingAccountContentType : Option Nat
  billingAccountObjectId : Option Nat
  periodStart : Option Int
  periodEnd : Option Int
  cancelAt : Option Int
  cancelAtPeriodEnd : Bool
  endedAt : Option Int
  status : String
  trialEnd : Option Int
  trialStart : Option Int
  deriving Repr, DecidableEq

/-- A `SubscriptionItem` row (`drf_stripe/models.py`): keyed by the remote
line-item id, referencing a subscription and a price with a quantity. -/
structure SubscriptionItemRow where
  subItemId : String
  subscriptionId : String
  priceId : String
  quantity : Nat
  deriving Repr, DecidableEq

/-- The relational store: one list of rows per table touched by the embedded
operations. -/
structure DB where
  users : List DjangoUser
  stripeUsers : List StripeUserRow
  billingAccounts : List BillingAccountRow
  subscriptions : List SubscriptionRow
  subscriptionItems : List SubscriptionItemRow
  deriving Repr, DecidableEq

/-- Package settings relevant to the embedded logic:
whether `BILLING_ACCOUNT_MODEL` is configured (and resolvable), and whether
`USER_CREATE_DEFAULTS_ATTRIBUTE_MAP` is set. -/
structure Settings where
  billingConfigured : Bool
  userCreateMapConfigured : Bool
  deriving Repr, DecidableEq

/-- A remote Stripe customer record as parsed from API payloads
(`stripe_models/customer.py`): id and nullable email. -/
structure StripeCustomerData where
  id : String
  email : Option String
  deriving Repr, DecidableEq

/-- A remote subscription line item (`subscription.items.data` element). -/
structure StripeItemData where
  id : String
  priceId : String
  quantity : Nat
  deriving Repr, DecidableEq

/-- A remote subscription record as parsed from the Stripe API
(`stripe_models/subscription.py`). -/
structure StripeSubscriptionData where
  id : String
  customer : String
  currentPeriodStart : Option Int
  currentPeriodEnd : Option Int
  cancelAt : Option Int
  cancelAtPeriodEnd : Bool
  endedAt : Option Int
  status : String
  trialEnd : Option Int
  trialStart : Option Int
  items : List StripeItemData
  deriving Repr, DecidableEq

/-- The remote Stripe service as seen by the embedded code: the customer
collection consulted by `Customer.retrieve` and `Customer.list(email=...)`,
and the fresh identifiers `Customer.create` and checkout-session creation
would mint. -/
structure Remote where
  customers : List StripeCustomerData
  freshCustomerId : String
  checkoutSessionId : String
  deriving Repr, DecidableEq

/-- Python truthiness of a nullable string column: `None` and the empty string
are falsy. -/
def truthyStr : Option String → Bool
  | none => false
  | some s => s != ""

/-- ContentType id assigned to the configured billing-account model by
`ContentType.objects.get_for_model`. -/
def billingContentTypeId : Nat := 1

/-- Largest user id plus one: the id Django assigns to a freshly created user
row. -/
def fresh_user_id (db : DB) : Nat := db.users.foldl (fun m u => max m u.id) 0 + 1

/-- Replace the billing-account row with the same primary key
(`billing_account.save(...)`). -/
def save_billing_account (db : DB) (ba : BillingAccountRow) : DB :=
  { db with billingAccounts := db.billingAccounts.map fun b => if b.pk == ba.pk then ba else b }

/-- Replace the stripe-user row with the same primary key
(`stripe_user.save()`). -/
def save_stripe_user (db : DB) (su : StripeUserRow) : DB :=
  { db with stripeUsers := db.stripeUsers.map fun s => if s.userId == su.userId then su else s }

/-- `find_billing_account` (`stripe_api/customers.py` lines 36-62).  When a
truthy customer id is given, the function returns the result of
`filter(stripe_customer_id=...).first()` directly, even when that is `None`;
only a falsy customer id falls through to the `manager_user` probe. -/
def find_billing_account (db : DB) (customerId : Option String) (userId : Option Nat) :
    Option BillingAccountRow :=
  if truthyStr customerId then
    db.billingAccounts.find? fun ba => ba.stripeCustomerId == customerId
  else
    match userId with
    | some uid => db.billingAccounts.find? fun ba => ba.managerUser == some uid
    | none => none

/-- The duplicated stripe-field update of `update_billing_account_subscription`
(`stripe_api/customers.py` lines 79-88), inlined verbatim in
`stripe_api_update_subscriptions` (`stripe_api/subscriptions.py` lines 86-96):
set `stripe_customer_id` only when it is falsy, set `stripe_subscription_id`
only when it differs, and record which fields were assigned. -/
def billing_stripe_fields_update (ba : BillingAccountRow) (customerId subscriptionId : String) :
    BillingAccountRow × List String :=
  let r1 : BillingAccountRow × List String :=
    if truthyStr ba.stripeCustomerId then (ba, [])
    else ({ ba with stripeCustomerId := some customerId }, ["stripe_customer_id"])
  if r1.1.stripeSubscriptionId == some subscriptionId then r1
  else ({ r1.1 with stripeSubscriptionId := some subscriptionId },
        r1.2 ++ ["stripe_subscription_id"])

/-- Defaults dictionary passed to `Subscription.objects.update_or_create`; the
billing pair is present exactly when the source added
`billing_account_content_type` and `billing_account_object_id` to the dict. -/
structure SubscriptionDefaults where
  stripeUser : Option Nat
  periodStart : Option Int
  periodEnd : Option Int
  cancelAt : Option Int
  cancelAtPeriodEnd : Bool
  endedAt : Option Int
  status : String
  trialEnd : Option Int
  trialStart : Option Int
  billing : Option (Nat × Nat)
  deriving Repr, DecidableEq

/-- `update_billing_account_subscription` (`stripe_api/customers.py` lines
65-94): on a missing account, return the defaults untouched; otherwise update
the account's stripe fields, save only when some field was assigned, and link
the defaults to the account.  Returns the updated account, whether `save` was
called, and the new defaults. -/
def update_billing_account_subscription (ba? : Option BillingAccountRow)
    (customerId subscriptionId : String) (d : SubscriptionDefaults) :
    Option BillingAccountRow × Bool × SubscriptionDefaults :=
  match ba? with
  | none => (none, false, d)
  | some ba =>
    let r := billing_stripe_fields_update ba customerId subscriptionId
    (some r.1, !r.2.isEmpty, { d with billing := some (billingContentTypeId, ba.pk) })

/-- `AbstractBillingAccount.can_manage_billing` (`models.py` lines 130-134):
`False` when no manager user is set, otherwise compare primary keys. -/
def can_manage_billing (ba : BillingAccountRow) (userPk : Nat) : Bool :=
  match ba.managerUser with
  | none => false
  | some m => userPk == m

/-- `_stripe_api_get_or_create_customer_from_email` (`stripe_api/customers.py`
lines 283-299): list the remote customers with the given email; when the list
is non-empty `stripe_customers.pop()` removes and returns its last element,
otherwise a fresh remote customer is created.  The boolean reports whether a
remote customer was created. -/
def stripe_api_get_or_create_customer_from_email (remote : Remote) (email : String) :
    StripeCustomerData × Bool :=
  match (remote.customers.filter fun c => c.email == some email).getLast? with
  | some c => (c, false)
  | none => ({ id := remote.freshCustomerId, email := some email }, true)

/-- `StripeUser.objects.get_or_create(user_id=..., defaults=...)`: return the
existing row for the user if any, else insert a new row carrying the default
customer id.  The boolean is Django's `created` flag. -/
def stripe_user_get_or_create_by_user_id (userId : Nat) (defaultCustomerId : Option String)
    (db : DB) : StripeUserRow × Bool × DB :=
  match db.stripeUsers.find? (fun su => su.userId == userId) with
  | some su => (su, false, db)
  | none =>
    let su : StripeUserRow := { userId := userId, customerId := defaultCustomerId }
    (su, true, { db with stripeUsers := db.stripeUsers ++ [su] })

/-- `_get_or_create_stripe_user_from_user_id_email` (`stripe_api/customers.py`
lines 261-280): get-or-create the `StripeUser` row by user id, passing the
customer id as a creation default only when it is truthy; when a row was
created without a customer id, get-or-create the remote customer by email and
store its id. -/
def get_or_create_stripe_user_from_user_id_email (remote : Remote) (userId : Nat)
    (userEmail : String) (customerId : Option String) (db : DB) : StripeUserRow × DB :=
  let defaults := if truthyStr customerId then customerId else none
  let t := stripe_user_get_or_create_by_user_id userId defaults db
  if t.2.1 && !truthyStr customerId then
    let c := stripe_api_get_or_create_customer_from_email remote userEmail
    let su2 := { t.1 with customerId := some c.1.id }
    (su2, save_stripe_user t.2.2 su2)
  else
    (t.1, t.2.2)

/-- `_get_or_create_django_user_if_configured` (`stripe_api/customers.py`
lines 186-213): return the first Django user matching the remote customer's
email; otherwise raise `CreatingNewUsersDisabledError` when no attribute map
is configured, else create a user with the customer's email.  The boolean is
the `created` flag. -/
def django_user_get_or_create_from_customer (st : Settings) (db : DB) (c : StripeCustomerData) :
    Except Err (DjangoUser × Bool × DB) :=
  match (db.users.filter fun u => c.email == some u.email).head? with
  | some u => .ok (u, false, db)
  | none =>
    if st.userCreateMapConfigured then
      let u : DjangoUser := { id := fresh_user_id db, email := c.email.getD "" }
      .ok (u, true, { db with users := db.users ++ [u] })
    else
      .error .creatingNewUsersDisabled

/-- `_get_or_create_stripe_user_from_customer_id` (`stripe_api/customers.py`
lines 159-183): `User.objects.get(stripe_user__customer_id=...)` resolves the
Django user owning a stripe-user row with the given customer id (zero matches
fall to the except branch, several raise `MultipleObjectsReturned`); on zero
matches the remote customer is retrieved and the Django user resolved or
created from its email; finally the stripe-user row is get-or-created for
that user with the customer id as creation default. -/
def get_or_create_stripe_user_from_customer_id (st : Settings) (remote : Remote) (db : DB)
    (customerId : String) : Except Err (StripeUserRow × DB) :=
  match db.users.filter fun u =>
      db.stripeUsers.any fun su => su.userId == u.id && su.customerId == some customerId with
  | [u] => .ok (get_or_create_stripe_user_from_user_id_email remote u.id u.email (some customerId) db)
  | [] =>
    match remote.customers.find? (fun c => c.id == customerId) with
    | none => .error .stripeNoSuchCustomer
    | some c =>
      match django_user_get_or_create_from_customer st db c with
      | .error e => .error e
      | .ok (u, _, db1) =>
        .ok (get_or_create_stripe_user_from_user_id_email remote u.id u.email (some customerId) db1)
  | _ => .error .multipleObjectsReturned

/-- `get_or_create_stripe_user_from_customer` (`stripe_api/customers.py`
lines 216-258): return the stripe-user row already referencing this customer
id if one exists; else resolve (or create, when configured) the Django user
by the customer's email, get-or-create the stripe-user row for that user with
the customer id as creation default, and raise a `ValueError` when an
existing row already holds a truthy customer id (necessarily a different
one).  The function is not transaction-wrapped, so the database is returned
alongside the outcome. -/
def get_or_create_stripe_user_from_customer (st : Settings) (db : DB) (c : StripeCustomerData) :
    DB × Except Err StripeUserRow :=
  match db.stripeUsers.filter fun su => su.customerId == some c.id with
  | [su] => (db, .ok su)
  | _ :: _ :: _ => (db, .error .multipleObjectsReturned)
  | [] =>
    let resolved : Except Err (DjangoUser × DB) :=
      match (db.users.filter fun u => c.email == some u.email).head? with
      | some u => .ok (u, db)
      | none =>
        if st.userCreateMapConfigured then
          let u : DjangoUser := { id := fresh_user_id db, email := c.email.getD "" }
          .ok (u, { db with users := db.users ++ [u] })
        else
          .error .creatingNewUsersDisabled
    match resolved with
    | .error e => (db, .error e)
    | .ok (u, db1) =>
      let (su, created, db2) := stripe_user_get_or_create_by_user_id u.id (some c.id) db1
      if !created && truthyStr su.customerId then (db2, .error .conflictingCustomerId)
      else (db2, .ok su)

/-- Apply an `update_or_create` defaults dictionary to an existing
`Subscription` row: every key present in the dict is assigned; the billing
pair is assigned only when the source added it to the dict. -/
def applySubscriptionDefaults (d : SubscriptionDefaults) (r : SubscriptionRow) : SubscriptionRow :=
  { r with
    stripeUser := d.stripeUser
    periodStart := d.periodStart
    periodEnd := d.periodEnd
    cancelAt := d.cancelAt
    cancelAtPeriodEnd := d.cancelAtPeriodEnd
    endedAt := d.endedAt
    status := d.status
    trialEnd := d.trialEnd
    trialStart := d.trialStart
    billingAccountContentType :=
      match d.billing with
      | some p => some p.1
      | none => r.billingAccountContentType
    billingAccountObjectId :=
      match d.billing with
      | some p => some p.2
      | none => r.billingAccountObjectId }

/-- Row inserted by `Subscription.objects.update_or_create` when no row with
the key exists: defaults plus model defaults for the remaining columns. -/
def newSubscriptionRow (subId : String) (d : SubscriptionDefaults) : SubscriptionRow :=
  { subscriptionId := subId
    stripeUser := d.stripeUser
    billingAccountContentType := d.billing.map Prod.fst
    billingAccountObjectId := d.billing.map Prod.snd
    periodStart := d.periodStart
    periodEnd := d.periodEnd
    cancelAt := d.cancelAt
    cancelAtPeriodEnd := d.cancelAtPeriodEnd
    endedAt := d.endedAt
    status := d.status
    trialEnd := d.trialEnd
    trialStart := d.trialStart }

/-- `Subscription.objects.update_or_create(subscription_id=..., defaults=...)`:
update the row with the key when present (the key is the primary key, so at
most one row matches), otherwise append a fresh row.  The boolean is Django's
`created` flag. -/
def subscription_update_or_create (subId : String) (d : SubscriptionDefaults)
    (subs : List SubscriptionRow) : List SubscriptionRow × Bool :=
  if subs.any (fun r => r.subscriptionId == subId) then
    (subs.map fun r => if r.subscriptionId == subId then applySubscriptionDefaults d r else r,
      false)
  else
    (subs ++ [newSubscriptionRow subId d], true)

/-- `SubscriptionItem.objects.update_or_create(sub_item_id=..., defaults=...)`:
update the row with the key when present, else append a fresh row. -/
def subscription_item_update_or_create (itemId subId priceId : String) (qty : Nat)
    (rows : List SubscriptionItemRow) : List SubscriptionItemRow :=
  if rows.any (fun it => it.subItemId == itemId) then
    rows.map fun it =>
      if it.subItemId == itemId then
        { it with subscriptionId := subId, priceId := priceId, quantity := qty }
      else it
  else
    rows ++ [{ subItemId := itemId, subscriptionId := subId, priceId := priceId, quantity := qty }]

/-- `_update_subscription_items` (`stripe_api/subscriptions.py` lines
120-131): delete every item row of the subscription, then upsert one row per
remote line item. -/
def update_subscription_items (subId : String) (items : List StripeItemData)
    (rows : List SubscriptionItemRow) : List SubscriptionItemRow :=
  items.foldl
    (fun acc it => subscription_item_update_or_create it.id subId it.priceId it.quantity acc)
    (rows.filter fun r => !(r.subscriptionId == subId))

/-- Defaults dictionary built for each remote subscription
(`stripe_api/subscriptions.py` lines 69-79). -/
def subscription_defaults_of (s : StripeSubscriptionData) (su : StripeUserRow) :
    SubscriptionDefaults :=
  { stripeUser := some su.userId
    periodStart := s.currentPeriodStart
    periodEnd := s.currentPeriodEnd
    cancelAt := s.cancelAt
    cancelAtPeriodEnd := s.cancelAtPeriodEnd
    endedAt := s.endedAt
    status := s.status
    trialEnd := s.trialEnd
    trialStart := s.trialStart
    billing := none }

/-- Billing-account part of the per-subscription loop
(`stripe_api/subscriptions.py` lines 81-101): when `BILLING_ACCOUNT_MODEL`
is configured, find the billing account by customer id or manager user,
update its stripe fields (saving only when some field was assigned) and add
the billing pair to the defaults. -/
def billing_branch (st : Settings) (db : DB) (s : StripeSubscriptionData) (uid : Nat)
    (d0 : SubscriptionDefaults) : DB × SubscriptionDefaults :=
  if st.billingConfigured then
    match find_billing_account db (some s.customer) (some uid) with
    | some ba =>
      let r := billing_stripe_fields_update ba s.customer s.id
      (if r.2.isEmpty then db else save_billing_account db r.1,
       { d0 with billing := some (billingContentTypeId, ba.pk) })
    | none => (db, d0)
  else (db, d0)

/-- Body of the per-subscription loop of `stripe_api_update_subscriptions`
(`stripe_api/subscriptions.py` lines 65-110): resolve the stripe user by
customer id, run the billing-account branch, then upsert the `Subscription`
row and replace its line items. -/
def process_subscription (st : Settings) (remote : Remote) (db : DB)
    (s : StripeSubscriptionData) : Except Err DB :=
  match get_or_create_stripe_user_from_customer_id st remote db s.customer with
  | .error e => .error e
  | .ok (su, db1) =>
    let bd := billing_branch st db1 s su.userId (subscription_defaults_of s su)
    .ok { bd.1 with
          subscriptions := (subscription_update_or_create s.id bd.2 bd.1.subscriptions).1,
          subscriptionItems := update_subscription_items s.id s.items bd.1.subscriptionItems }

/-- Billing-account part of the webhook subscription handler
(`stripe_webhooks/customer_subscription.py` lines 32-39): when
`BILLING_ACCOUNT_MODEL` is configured, find the billing account by customer
id or manager user and run `update_billing_account_subscription`, applying
its save to the store when one happened. -/
def webhook_billing_branch (st : Settings) (db : DB) (s : StripeSubscriptionData)
    (uid : Nat) (d0 : SubscriptionDefaults) : DB × SubscriptionDefaults :=
  if st.billingConfigured then
    let r := update_billing_account_subscription
      (find_billing_account db (some s.customer) (some uid)) s.customer s.id d0
    (match r.1 with
     | some ba2 => if r.2.1 then save_billing_account db ba2 else db
     | none => db,
     r.2.2)
  else (db, d0)

/-- `_handle_customer_subscription_event_data`
(`stripe_webhooks/customer_subscription.py` lines 6-59):
`StripeUser.objects.get(customer_id=customer)` resolves the stripe-user row
(zero matches raise `ObjectDoesNotExist`, several raise
`MultipleObjectsReturned`); the billing branch then updates and links the
billing account through `update_billing_account_subscription`; finally the
`Subscription` row is upserted, `subscription.items.all().delete()` removes
the line items of this subscription and `_create_subscription_items` upserts
one row per remote line item — the same delete-then-upsert step as
`_update_subscription_items`, embedded by `update_subscription_items`. -/
def handle_customer_subscription_event_data (st : Settings) (db : DB)
    (s : StripeSubscriptionData) : Except Err DB :=
  match db.stripeUsers.filter fun x => x.customerId == some s.customer with
  | [su] =>
    let bd := webhook_billing_branch st db s su.userId (subscription_defaults_of s su)
    .ok { bd.1 with
          subscriptions := (subscription_update_or_create s.id bd.2 bd.1.subscriptions).1,
          subscriptionItems := update_subscription_items s.id s.items bd.1.subscriptionItems }
  | [] => .error .objectDoesNotExist
  | _ => .error .multipleObjectsReturned

/-- Loop of `stripe_api_update_subscriptions`: only
`CreatingNewUsersDisabledError` is caught, and only when
`ignore_new_user_creation_errors` is set; any other error aborts (and, with
`@atomic`, rolls back) the whole call. -/
def update_subscriptions_go (st : Settings) (remote : Remote) (ignoreErr : Bool) :
    DB → List StripeSubscriptionData → Except Err DB
  | db, [] => .ok db
  | db, s :: rest =>
    match process_subscription st remote db s with
    | .ok db1 => update_subscriptions_go st remote ignoreErr db1 rest
    | .error .creatingNewUsersDisabled =>
      if ignoreErr then update_subscriptions_go st remote ignoreErr db rest
      else .error .creatingNewUsersDisabled
    | .error e => .error e

/-- `stripe_api_update_subscriptions` (`stripe_api/subscriptions.py` lines
31-117), in test-data mode: reject the call with a `ValueError` when
`limit < 0 or limit > 100`, else process each remote subscription in order.
The `@atomic` decorator makes an error roll back every write. -/
def stripe_api_update_subscriptions (st : Settings) (remote : Remote) (limit : Int)
    (testData : List StripeSubscriptionData) (ignoreErr : Bool) (db : DB) : Except Err DB :=
  if limit < 0 ∨ limit > 100 then .error .valueError
  else update_subscriptions_go st remote ignoreErr db testData

/-- Body of the per-customer loop of `stripe_api_update_customers`
(`stripe_api/customers.py` lines 334-369): skip customers without email;
get-or-create the Django user when the attribute map is configured, else look
it up; when a user exists, get-or-create its stripe-user row with the
customer id as creation default, and when `BILLING_ACCOUNT_MODEL` is
configured set the billing account's customer id when it is falsy. -/
def process_customer (st : Settings) (db : DB) (c : StripeCustomerData) : Except Err DB :=
  match c.email with
  | none => .ok db
  | some email =>
    let resolved : Except Err (Option DjangoUser × DB) :=
      if st.userCreateMapConfigured then
        match db.users.filter fun u => u.email == email with
        | [] =>
          let u : DjangoUser := { id := fresh_user_id db, email := email }
          .ok (some u, { db with users := db.users ++ [u] })
        | [u] => .ok (some u, db)
        | _ => .error .multipleObjectsReturned
      else
        .ok ((db.users.filter fun u => u.email == email).head?, db)
    match resolved with
    | .error e => .error e
    | .ok (none, db1) => .ok db1
    | .ok (some u, db1) =>
      let (_, _, db2) := stripe_user_get_or_create_by_user_id u.id (some c.id) db1
      if st.billingConfigured then
        match find_billing_account db2 none (some u.id) with
        | some ba =>
          if !truthyStr ba.stripeCustomerId then
            .ok (save_billing_account db2 { ba with stripeCustomerId := some c.id })
          else .ok db2
        | none => .ok db2
      else .ok db2

/-- Loop of `stripe_api_update_customers`; no exception is caught inside the
loop. -/
def update_customers_go (st : Settings) : DB → List StripeCustomerData → Except Err DB
  | db, [] => .ok db
  | db, c :: rest =>
    match process_customer st db c with
    | .ok db1 => update_customers_go st db1 rest
    | .error e => .error e

/-- `stripe_api_update_customers` (`stripe_api/customers.py` lines 302-371),
in test-data mode: reject the call with a `ValueError` when
`limit < 0 or limit > 100`, else process each remote customer in order. -/
def stripe_api_update_customers (st : Settings) (limit : Int)
    (testData : List StripeCustomerData) (db : DB) : Except Err DB :=
  if limit < 0 ∨ limit > 100 then .error .valueError
  else update_customers_go st db testData

/-- A verified webhook event as extracted in `stripe_webhooks/billing.py`:
`event['type']` plus the fields read from `event['data']['object']` and its
metadata. -/
structure WebhookEvent where
  typ : String
  metadataOwnerType : Option String
  metadataOwnerId : Option String
  objSubscription : Option String
  objId : Option String
  objCustomer : Option String
  deriving Repr, DecidableEq

/-- Event types handled by the billing webhook view
(`stripe_webhooks/billing.py` line 39). -/
def recognizedEventTypes : List String :=
  ["checkout.session.completed", "invoice.payment_succeeded",
   "customer.subscription.created", "customer.subscription.updated"]

/-- Python `a or b` on nullable strings: the first operand when truthy, else
the second. -/
def pyOrStr (a b : Option String) : Option String := if truthyStr a then a else b

/-- `stripe_webhook` (`stripe_webhooks/billing.py` lines 13-99).  A failed
`stripe.Webhook.construct_event` call (modelled as `none`) returns 400 before
any event data exists; a verified event always returns 200.  For the four
recognized types the view resolves a billing account and persists the
subscription id on it: the metadata owner probe always comes up empty for a
billing model of the `AbstractBillingAccount` shape (it has neither a generic
`content_type` relation nor any of the candidate foreign keys `owner`,
`user`, `organization`, `team`, so every probe raises and is swallowed), and
the fallback looks the account up by its stored Stripe customer id. -/
def stripe_webhook (st : Settings) (db : DB) (event? : Option WebhookEvent) : DB × Nat :=
  match event? with
  | none => (db, 400)
  | some e =>
    if recognizedEventTypes.contains e.typ then
      let subscriptionId := pyOrStr e.objSubscription e.objId
      let baFromMetadata : Option BillingAccountRow := none
      let ba : Option BillingAccountRow :=
        if st.billingConfigured then
          if baFromMetadata.isNone && truthyStr e.objCustomer then
            db.billingAccounts.find? fun b => b.stripeCustomerId == e.objCustomer
          else baFromMetadata
        else none
      match ba with
      | some b =>
        if truthyStr subscriptionId then
          (save_billing_account db { b with stripeSubscriptionId := subscriptionId }, 200)
        else (db, 200)
      | none => (db, 200)
    else (db, 200)

/-- Result of `CheckoutRequestSerializer.validate`: the (non-transactional)
database after the call together with either the session id placed in
`attrs['session_id']` or the `ValidationError` message. -/
structure CheckoutResult where
  db : DB
  outcome : Except String String
  deriving Repr

/-- Authorization-denied message raised by `CheckoutRequestSerializer.validate`
(`serializers.py` line 163). -/
def checkoutAuthDeniedMsg : String :=
  "User is not authorized to manage billing for this account."

/-- Billing-account resolution of `CheckoutRequestSerializer.validate`
(`serializers.py` lines 140-158) for a request without `owner_type` and
`owner_id` (the owner defaults to the requesting user) against a billing
model of the `AbstractBillingAccount` shape: the model has no generic
`content_type` relation and none of the candidate foreign keys, so the last
resort `get_or_create(pk=owner.pk)` runs, creating a fresh row (with every
nullable column unset, including `manager_user`) when none exists.  Returns
the instance, Django's `created` flag and the database after the call. -/
def resolve_checkout_billing_account (db : DB) (ownerPk : Nat) :
    BillingAccountRow × Bool × DB :=
  match db.billingAccounts.find? (fun b => b.pk == ownerPk) with
  | some b => (b, false, db)
  | none =>
    let b : BillingAccountRow :=
      { pk := ownerPk, stripeCustomerId := none, stripeSubscriptionId := none,
        managerUser := none }
    (b, true, { db with billingAccounts := db.billingAccounts ++ [b] })

/-- `AbstractBillingAccount.get_or_create_stripe_customer` (`models.py` lines
120-128): return the stored customer id when truthy, else create a remote
customer, store and save its id.  Returns the customer id, the updated row
and whether a save happened. -/
def get_or_create_stripe_customer (remote : Remote) (ba : BillingAccountRow) :
    String × BillingAccountRow × Bool :=
  if truthyStr ba.stripeCustomerId then (ba.stripeCustomerId.getD "", ba, false)
  else (remote.freshCustomerId, { ba with stripeCustomerId := some remote.freshCustomerId }, true)

/-- Modelled from the spec: `stripe_api_create_checkout_session`
(`drf_stripe/stripe_api/checkout.py`, imported by `serializers.py` but not
present under `src/`) requests a hosted checkout session from the remote
provider for the resolved customer and price and returns the session.  Its
identifier is the remote-minted session id. -/
def stripe_api_create_checkout_session (remote : Remote) (_customerId _priceId : String) :
    String :=
  remote.checkoutSessionId

/-- `CheckoutRequestSerializer.validate` (`serializers.py` lines 89-208) for a
request without `owner_type`/`owner_id`, against a billing model of the
`AbstractBillingAccount` shape when `BILLING_ACCOUNT_MODEL` is configured.
With a billing model: resolve-or-create the billing account for the
requesting user, deny with a `ValidationError` when `can_manage_billing`
rejects the user (the serializer runs outside any transaction, so the row
created during resolution persists), else obtain the Stripe customer and
create the checkout session.  Without a billing model: the legacy per-user
flow resolves the requesting user's stripe-user row and its customer id. -/
def checkout_validate (st : Settings) (remote : Remote) (db : DB) (requestUserPk : Nat)
    (priceId : String) : CheckoutResult :=
  if st.billingConfigured then
    let r := resolve_checkout_billing_account db requestUserPk
    if !can_manage_billing r.1 requestUserPk then
      { db := r.2.2, outcome := .error checkoutAuthDeniedMsg }
    else
      let g := get_or_create_stripe_customer remote r.1
      let db2 := if g.2.2 then save_billing_account r.2.2 g.2.1 else r.2.2
      { db := db2,
        outcome := .ok (stripe_api_create_checkout_session remote g.1 priceId) }
  else
    match db.users.find? (fun u => u.id == requestUserPk) with
    | none => { db := db, outcome := .error "Failed to resolve legacy Stripe user" }
    | some u =>
      let p := get_or_create_stripe_user_from_user_id_email remote u.id u.email none db
      { db := p.2,
        outcome := .ok (stripe_api_create_checkout_session remote (p.1.customerId.getD "") priceId) }

/-! Theorems.  Each claim of the specification is settled below; concrete
databases, settings and remote states used by counterexamples and witnesses
are declared next to the theorems that use them. -/

/-- C9: for every billing account whose manager_user reference is null,
can_manage_billing returns False for every user, so an account with no
designated manager denies billing management to everyone. -/
theorem C9_no_manager_denies_everyone (ba : BillingAccountRow)
    (h : ba.managerUser = none) :
    ∀ userPk : Nat, can_manage_billing ba userPk = false := by
  intro userPk
  unfold can_manage_billing
  rw [h]

/-- Witness for C9 at a concrete manager-less billing account and user. -/
theorem C9_witness :
    can_manage_billing
      { pk := 1, stripeCustomerId := none, stripeSubscriptionId := none, managerUser := none }
      1 = false :=
  C9_no_manager_denies_everyone _ rfl 1

/-- C8: during subscription sync with a resolved billing account, the stored
customer id is assigned only when currently absent, the stored subscription
id only when it differs from the incoming one, and when neither condition
holds the account is unchanged and no save occurs (`update_fields` stays
empty). -/
theorem C8_billing_fields_written_only_when_needed (ba : BillingAccountRow)
    (cid sid : String) (d : SubscriptionDefaults) :
    (truthyStr ba.stripeCustomerId = true →
      (billing_stripe_fields_update ba cid sid).1.stripeCustomerId = ba.stripeCustomerId) ∧
    (ba.stripeSubscriptionId = some sid →
      (billing_stripe_fields_update ba cid sid).1.stripeSubscriptionId =
        ba.stripeSubscriptionId) ∧
    (truthyStr ba.stripeCustomerId = true → ba.stripeSubscriptionId = some sid →
      update_billing_account_subscription (some ba) cid sid d =
        (some ba, false, { d with billing := some (billingContentTypeId, ba.pk) })) := by
  refine ⟨?_, ?_, ?_⟩
  · intro h
    unfold billing_stripe_fields_update
    simp only [h, if_true]
    split <;> rfl
  · intro h
    unfold billing_stripe_fields_update
    by_cases hc : truthyStr ba.stripeCustomerId <;> simp [hc, h]
  · intro h1 h2
    unfold update_billing_account_subscription billing_stripe_fields_update
    simp [h1, h2]

/-- Sample defaults dictionary used by the C8 witness. -/
def c8Defaults : SubscriptionDefaults :=
  { stripeUser := some 1, periodStart := none, periodEnd := none, cancelAt := none,
    cancelAtPeriodEnd := false, endedAt := none, status := "active", trialEnd := none,
    trialStart := none, billing := none }

/-- Billing account used by the C8 witness: both stripe fields already carry
the incoming values. -/
def c8Account : BillingAccountRow :=
  { pk := 7, stripeCustomerId := some "cus_a", stripeSubscriptionId := some "sub_a",
    managerUser := some 1 }

/-- Witness for C8: with a stored customer id and an unchanged subscription
id, the account is returned untouched and no save happens. -/
theorem C8_witness :
    (truthyStr c8Account.stripeCustomerId = true →
      (billing_stripe_fields_update c8Account "cus_b" "sub_a").1.stripeCustomerId =
        c8Account.stripeCustomerId) ∧
    (c8Account.stripeSubscriptionId = some "sub_a" →
      (billing_stripe_fields_update c8Account "cus_b" "sub_a").1.stripeSubscriptionId =
        c8Account.stripeSubscriptionId) ∧
    (truthyStr c8Account.stripeCustomerId = true →
      c8Account.stripeSubscriptionId = some "sub_a" →
      update_billing_account_subscription (some c8Account) "cus_b" "sub_a" c8Defaults =
        (some c8Account, false,
          { c8Defaults with billing := some (billingContentTypeId, c8Account.pk) })) :=
  C8_billing_fields_written_only_when_needed c8Account "cus_b" "sub_a" c8Defaults

/-- Remote state with two Stripe customers sharing one email address, used to
settle C3. -/
def c3Remote : Remote :=
  { customers := [{ id := "cus_first", email := some "dup@example.com" },
                  { id := "cus_second", email := some "dup@example.com" }],
    freshCustomerId := "cus_new", checkoutSessionId := "cs_1" }

/-- C3 counterexample: the remote listing for the email is non-empty and its
first element is cus_first, yet the operation returns cus_second, the last
element (Python list.pop removes from the end), refuting the claim that the
first existing customer is returned. -/
theorem C3_counterexample :
    (c3Remote.customers.filter fun c => c.email == some "dup@example.com").head? =
      some { id := "cus_first", email := some "dup@example.com" } ∧
    stripe_api_get_or_create_customer_from_email c3Remote "dup@example.com" =
      ({ id := "cus_second", email := some "dup@example.com" }, false) := by
  exact ⟨rfl, rfl⟩

/-- C3 as amended: when the remote listing for the email is non-empty the
operation returns its last element and creates nothing; it creates a new
remote customer exactly when the listing is empty. -/
theorem C3_returns_last_existing_customer (remote : Remote) (email : String) :
    ((remote.customers.filter fun c => c.email == some email) ≠ [] →
      (stripe_api_get_or_create_customer_from_email remote email).2 = false ∧
      some (stripe_api_get_or_create_customer_from_email remote email).1 =
        (remote.customers.filter fun c => c.email == some email).getLast?) ∧
    ((remote.customers.filter fun c => c.email == some email) = [] →
      (stripe_api_get_or_create_customer_from_email remote email).2 = true) := by
  constructor
  · intro hne
    unfold stripe_api_get_or_create_customer_from_email
    cases hgl : (remote.customers.filter fun c => c.email == some email).getLast? with
    | none => exact absurd (by simpa using hgl) hne
    | some c => simp [hgl]
  · intro he
    unfold stripe_api_get_or_create_customer_from_email
    simp [he]

/-- Witness for C3 at the concrete two-customer remote state. -/
theorem C3_witness :
    (stripe_api_get_or_create_customer_from_email c3Remote "dup@example.com").2 = false ∧
    some (stripe_api_get_or_create_customer_from_email c3Remote "dup@example.com").1 =
      (c3Remote.customers.filter fun c => c.email == some "dup@example.com").getLast? :=
  (C3_returns_last_existing_customer c3Remote "dup@example.com").1 (by decide)

/-- Empty database used by the C6 counterexample. -/
def c6Db : DB :=
  { users := [], stripeUsers := [], billingAccounts := [], subscriptions := [],
    subscriptionItems := [] }

/-- Remote state used by the C6 counterexample. -/
def c6Remote : Remote := { customers := [], freshCustomerId := "cus_x", checkoutSessionId := "cs_x" }

/-- Settings used by the C6 counterexample. -/
def c6St : Settings := { billingConfigured := false, userCreateMapConfigured := false }

/-- C6 counterexample: limit 0 lies outside the range 1 to 100 claimed to be
enforced, yet both bulk-pull entry points accept it (the source only rejects
limit < 0 or limit > 100). -/
theorem C6_counterexample :
    stripe_api_update_subscriptions c6St c6Remote 0 [] false c6Db = .ok c6Db ∧
    stripe_api_update_customers c6St 0 [] c6Db = .ok c6Db := by
  exact ⟨rfl, rfl⟩

/-- C6 as amended: for every limit that is negative or greater than 100, both
bulk-pull entry points reject the call with a ValueError before consulting
any data or writing any state. -/
theorem C6_limit_gate (st : Settings) (remote : Remote) (limit : Int)
    (dataS : List StripeSubscriptionData) (dataC : List StripeCustomerData)
    (ignoreErr : Bool) (db : DB)
    (h : limit < 0 ∨ limit > 100) :
    stripe_api_update_subscriptions st remote limit dataS ignoreErr db = .error .valueError ∧
    stripe_api_update_customers st limit dataC db = .error .valueError := by
  constructor
  · unfold stripe_api_update_subscriptions
    rw [if_pos h]
  · unfold stripe_api_update_customers
    rw [if_pos h]

/-- Witness for C6 at limit 101. -/
theorem C6_witness :
    stripe_api_update_subscriptions c6St c6Remote 101 [] false c6Db = .error .valueError ∧
    stripe_api_update_customers c6St 101 [] c6Db = .error .valueError :=
  C6_limit_gate c6St c6Remote 101 [] [] false c6Db (by decide)

/-- C5: when no stripe-user row references the remote customer id, the first
Django user matching the customer email already has a stripe-user row, and
that row holds a truthy (hence different) customer id, the operation fails
with the conflict error and leaves the database, in particular the existing
link, untouched. -/
theorem C5_conflicting_mapping_fails (st : Settings) (db : DB) (c : StripeCustomerData)
    (u : DjangoUser) (su : StripeUserRow)
    (hNone : db.stripeUsers.filter (fun s => s.customerId == some c.id) = [])
    (hFirst : (db.users.filter fun v => c.email == some v.email).head? = some u)
    (hFind : db.stripeUsers.find? (fun s => s.userId == u.id) = some su)
    (hTruthy : truthyStr su.customerId = true) :
    get_or_create_stripe_user_from_customer st db c = (db, .error .conflictingCustomerId) := by
  unfold get_or_create_stripe_user_from_customer
  rw [hNone]
  dsimp only
  rw [hFirst]
  dsimp only
  unfold stripe_user_get_or_create_by_user_id
  rw [hFind]
  simp [hTruthy]

/-- Database for the C5 witness: one user whose stripe-user row already
references a different customer id. -/
def c5Db : DB :=
  { users := [{ id := 1, email := "a@example.com" }],
    stripeUsers := [{ userId := 1, customerId := some "cus_old" }],
    billingAccounts := [], subscriptions := [], subscriptionItems := [] }

/-- Remote customer for the C5 witness: same email, different customer id. -/
def c5Customer : StripeCustomerData := { id := "cus_new", email := some "a@example.com" }

/-- Settings for the C5 witness. -/
def c5St : Settings := { billingConfigured := false, userCreateMapConfigured := true }

/-- Witness for C5 at a concrete conflicting database. -/
theorem C5_witness :
    get_or_create_stripe_user_from_customer c5St c5Db c5Customer =
      (c5Db, .error .conflictingCustomerId) :=
  C5_conflicting_mapping_fails c5St c5Db c5Customer
    { id := 1, email := "a@example.com" } { userId := 1, customerId := some "cus_old" }
    rfl rfl rfl rfl

/-- C10: when no stripe-user row references the remote customer id and the
first Django user matching the customer email has a stripe-user row whose
customer id is null, the operation returns that row unchanged, without
raising and without setting its customer id, and the database is
untouched. -/
theorem C10_null_link_returned_unmodified (st : Settings) (db : DB) (c : StripeCustomerData)
    (u : DjangoUser) (su : StripeUserRow)
    (hNone : db.stripeUsers.filter (fun s => s.customerId == some c.id) = [])
    (hFirst : (db.users.filter fun v => c.email == some v.email).head? = some u)
    (hFind : db.stripeUsers.find? (fun s => s.userId == u.id) = some su)
    (hNull : su.customerId = none) :
    get_or_create_stripe_user_from_customer st db c = (db, .ok su) := by
  unfold get_or_create_stripe_user_from_customer
  rw [hNone]
  dsimp only
  rw [hFirst]
  dsimp only
  unfold stripe_user_get_or_create_by_user_id
  rw [hFind]
  simp [hNull, truthyStr]

/-- Database for the C10 witness: one user whose stripe-user row has a null
customer id. -/
def c10Db : DB :=
  { users := [{ id := 1, email := "a@example.com" }],
    stripeUsers := [{ userId := 1, customerId := none }],
    billingAccounts := [], subscriptions := [], subscriptionItems := [] }

/-- Remote customer for the C10 witness. -/
def c10Customer : StripeCustomerData := { id := "cus_new", email := some "a@example.com" }

/-- Witness for C10 at a concrete database with a null link. -/
theorem C10_witness :
    get_or_create_stripe_user_from_customer c5St c10Db c10Customer =
      (c10Db, .ok { userId := 1, customerId := none }) :=
  C10_null_link_returned_unmodified c5St c10Db c10Customer
    { id := 1, email := "a@example.com" } { userId := 1, customerId := none }
    rfl rfl rfl rfl

/-- C7: a webhook request whose signature verification fails (no event could
be constructed) is answered with status 400 and the database untouched; a
verified event is answered with status 200 whatever its type; an event of an
unrecognized type is accepted without any processing (database untouched). -/
theorem C7_webhook_statuses (st : Settings) (db : DB) :
    stripe_webhook st db none = (db, 400) ∧
    (∀ e : WebhookEvent, (stripe_webhook st db (some e)).2 = 200) ∧
    (∀ e : WebhookEvent, recognizedEventTypes.contains e.typ = false →
      stripe_webhook st db (some e) = (db, 200)) := by
  refine ⟨rfl, ?_, ?_⟩
  · intro e
    unfold stripe_webhook
    dsimp only
    cases hr : recognizedEventTypes.contains e.typ with
    | false => rfl
    | true =>
      rw [if_pos rfl]
      split
      · split <;> rfl
      · rfl
  · intro e hr
    unfold stripe_webhook
    dsimp only
    rw [hr]
    rfl

/-- Database for the C7 witness. -/
def c7Db : DB :=
  { users := [], stripeUsers := [],
    billingAccounts := [{ pk := 1, stripeCustomerId := some "cus_t",
                          stripeSubscriptionId := none, managerUser := none }],
    subscriptions := [], subscriptionItems := [] }

/-- Settings for the C7 witness. -/
def c7St : Settings := { billingConfigured := true, userCreateMapConfigured := true }

/-- Unrecognized event for the C7 witness. -/
def c7Event : WebhookEvent :=
  { typ := "customer.updated", metadataOwnerType := none, metadataOwnerId := none,
    objSubscription := none, objId := some "cus_t", objCustomer := some "cus_t" }

/-- Witness for C7: concrete failed verification, a concrete verified event,
and a concrete unrecognized event. -/
theorem C7_witness :
    stripe_webhook c7St c7Db none = (c7Db, 400) ∧
    (stripe_webhook c7St c7Db (some c7Event)).2 = 200 ∧
    stripe_webhook c7St c7Db (some c7Event) = (c7Db, 200) :=
  ⟨(C7_webhook_statuses c7St c7Db).1,
   (C7_webhook_statuses c7St c7Db).2.1 c7Event,
   (C7_webhook_statuses c7St c7Db).2.2 c7Event (by decide)⟩

/-- Frame of the checkout billing-account resolution: only the
billing-account table can change, and only by appending the freshly created
default row. -/
theorem resolve_checkout_billing_account_frame (db : DB) (ownerPk : Nat) :
    (resolve_checkout_billing_account db ownerPk).2.2.users = db.users ∧
    (resolve_checkout_billing_account db ownerPk).2.2.stripeUsers = db.stripeUsers ∧
    (resolve_checkout_billing_account db ownerPk).2.2.subscriptions = db.subscriptions ∧
    (resolve_checkout_billing_account db ownerPk).2.2.subscriptionItems =
      db.subscriptionItems ∧
    ((resolve_checkout_billing_account db ownerPk).2.2.billingAccounts =
        db.billingAccounts ∨
     (resolve_checkout_billing_account db ownerPk).2.2.billingAccounts =
        db.billingAccounts ++
          [{ pk := ownerPk, stripeCustomerId := none, stripeSubscriptionId := none,
             managerUser := none }]) := by
  unfold resolve_checkout_billing_account
  cases h : db.billingAccounts.find? (fun b => b.pk == ownerPk) <;> simp

/-- C4 as amended: when billing accounts are configured and the resolved
billing account denies the acting user, the checkout request fails with the
authorization validation error; the serializer runs outside a transaction,
so the only database change that can persist from the failed request is the
billing-account row created during owner resolution (all other tables are
untouched). -/
theorem C4_denied_checkout_keeps_created_row (st : Settings) (remote : Remote) (db : DB)
    (userPk : Nat) (priceId : String)
    (hB : st.billingConfigured = true)
    (hDeny : can_manage_billing (resolve_checkout_billing_account db userPk).1 userPk
      = false) :
    checkout_validate st remote db userPk priceId =
      { db := (resolve_checkout_billing_account db userPk).2.2,
        outcome := .error checkoutAuthDeniedMsg } ∧
    (resolve_checkout_billing_account db userPk).2.2.users = db.users ∧
    (resolve_checkout_billing_account db userPk).2.2.stripeUsers = db.stripeUsers ∧
    (resolve_checkout_billing_account db userPk).2.2.subscriptions = db.subscriptions ∧
    (resolve_checkout_billing_account db userPk).2.2.subscriptionItems =
      db.subscriptionItems ∧
    ((resolve_checkout_billing_account db userPk).2.2.billingAccounts =
        db.billingAccounts ∨
     (resolve_checkout_billing_account db userPk).2.2.billingAccounts =
        db.billingAccounts ++
          [{ pk := userPk, stripeCustomerId := none, stripeSubscriptionId := none,
             managerUser := none }]) := by
  refine ⟨?_, resolve_checkout_billing_account_frame db userPk⟩
  unfold checkout_validate
  rw [hB]
  simp [hDeny]

/-- Settings for the C4 counterexample and witness. -/
def c4St : Settings := { billingConfigured := true, userCreateMapConfigured := true }

/-- Database for the C4 counterexample and witness: one user, no billing
account yet. -/
def c4Db : DB :=
  { users := [{ id := 1, email := "tester@example.com" }], stripeUsers := [],
    billingAccounts := [], subscriptions := [], subscriptionItems := [] }

/-- Remote state for the C4 counterexample and witness. -/
def c4Remote : Remote := { customers := [], freshCustomerId := "cus_x", checkoutSessionId := "cs_x" }

/-- C4 counterexample: the denied checkout request does fail with the
authorization validation error, but the database is NOT left unchanged: the
billing-account row created during owner resolution (with no manager, hence
the denial) persists. -/
theorem C4_counterexample :
    (checkout_validate c4St c4Remote c4Db 1 "price_1").outcome =
      .error checkoutAuthDeniedMsg ∧
    (checkout_validate c4St c4Remote c4Db 1 "price_1").db ≠ c4Db ∧
    (checkout_validate c4St c4Remote c4Db 1 "price_1").db.billingAccounts =
      [{ pk := 1, stripeCustomerId := none, stripeSubscriptionId := none,
         managerUser := none }] := by
  refine ⟨rfl, by decide, rfl⟩

/-- Witness for C4: the amended theorem applied at the concrete denied
request. -/
theorem C4_witness :
    checkout_validate c4St c4Remote c4Db 1 "price_1" =
      { db := (resolve_checkout_billing_account c4Db 1).2.2,
        outcome := .error checkoutAuthDeniedMsg } ∧
    (resolve_checkout_billing_account c4Db 1).2.2.users = c4Db.users ∧
    (resolve_checkout_billing_account c4Db 1).2.2.stripeUsers = c4Db.stripeUsers ∧
    (resolve_checkout_billing_account c4Db 1).2.2.subscriptions = c4Db.subscriptions ∧
    (resolve_checkout_billing_account c4Db 1).2.2.subscriptionItems =
      c4Db.subscriptionItems ∧
    ((resolve_checkout_billing_account c4Db 1).2.2.billingAccounts =
        c4Db.billingAccounts ∨
     (resolve_checkout_billing_account c4Db 1).2.2.billingAccounts =
        c4Db.billingAccounts ++
          [{ pk := 1, stripeCustomerId := none, stripeSubscriptionId := none,
             managerUser := none }]) :=
  C4_denied_checkout_keeps_created_row c4St c4Remote c4Db 1 "price_1" rfl (by decide)

/-- When exactly one Django user owns a stripe-user row with the given
customer id, the customer-id resolution returns that row and leaves the
database unchanged. -/
theorem goc_found_user (st : Settings) (remote : Remote) (db : DB) (cid : String)
    (u : DjangoUser)
    (hUser : db.users.filter
        (fun v => db.stripeUsers.any fun x => x.userId == v.id && x.customerId == some cid)
      = [u]) :
    ∃ su : StripeUserRow,
      db.stripeUsers.find? (fun x => x.userId == u.id) = some su ∧
      su.userId = u.id ∧
      get_or_create_stripe_user_from_customer_id st remote db cid = .ok (su, db) := by
  have hmem : u ∈ db.users.filter
      (fun v => db.stripeUsers.any fun x => x.userId == v.id && x.customerId == some cid) := by
    rw [hUser]; exact List.mem_singleton_self u
  have hpred := (List.mem_filter.mp hmem).2
  have hx : ∃ x ∈ db.stripeUsers, (x.userId == u.id && x.customerId == some cid) = true :=
    List.any_eq_true.mp hpred
  obtain ⟨x, hxmem, hxeq⟩ := hx
  have hxid : (x.userId == u.id) = true := by
    rw [Bool.and_eq_true] at hxeq
    exact hxeq.1
  have hsome : (db.stripeUsers.find? fun y => y.userId == u.id).isSome :=
    List.find?_isSome.mpr ⟨x, hxmem, hxid⟩
  obtain ⟨su, hfind⟩ := Option.isSome_iff_exists.mp hsome
  have huid : su.userId = u.id := by
    have h := List.find?_some hfind
    simpa using h
  refine ⟨su, hfind, huid, ?_⟩
  have ht : stripe_user_get_or_create_by_user_id u.id
      (if truthyStr (some cid) then some cid else none) db = (su, false, db) := by
    unfold stripe_user_get_or_create_by_user_id
    rw [hfind]
  unfold get_or_create_stripe_user_from_customer_id
  rw [hUser]
  dsimp only
  unfold get_or_create_stripe_user_from_user_id_email
  dsimp only
  rw [ht]
  rfl

/-- The billing branch touches at most the billing-account table. -/
theorem billing_branch_frame (st : Settings) (db : DB) (s : StripeSubscriptionData)
    (uid : Nat) (d0 : SubscriptionDefaults) :
    (billing_branch st db s uid d0).1.users = db.users ∧
    (billing_branch st db s uid d0).1.stripeUsers = db.stripeUsers ∧
    (billing_branch st db s uid d0).1.subscriptions = db.subscriptions ∧
    (billing_branch st db s uid d0).1.subscriptionItems = db.subscriptionItems := by
  unfold billing_branch
  split
  · split
    · dsimp only
      split <;> exact ⟨rfl, rfl, rfl, rfl⟩
    · exact ⟨rfl, rfl, rfl, rfl⟩
  · exact ⟨rfl, rfl, rfl, rfl⟩

/-- The billing branch keeps the legacy stripe-user entry of the defaults. -/
theorem billing_branch_stripeUser (st : Settings) (db : DB) (s : StripeSubscriptionData)
    (uid : Nat) (d0 : SubscriptionDefaults) :
    (billing_branch st db s uid d0).2.stripeUser = d0.stripeUser := by
  unfold billing_branch
  split
  · split
    · rfl
    · rfl
  · rfl

/-- When billing accounts are configured and one is found, the billing branch
links the defaults to it. -/
theorem billing_branch_billing_of_found (st : Settings) (db : DB)
    (s : StripeSubscriptionData) (uid : Nat) (d0 : SubscriptionDefaults)
    (hb : st.billingConfigured = true) (ba : BillingAccountRow)
    (hfb : find_billing_account db (some s.customer) (some uid) = some ba) :
    (billing_branch st db s uid d0).2.billing = some (billingContentTypeId, ba.pk) := by
  unfold billing_branch
  rw [hb, hfb]
  rfl

/-- Characterization of a successful run of the per-subscription body when the
stripe user resolves without touching the database. -/
theorem process_subscription_run (st : Settings) (remote : Remote) (db : DB)
    (s : StripeSubscriptionData) (u : DjangoUser)
    (hUser : db.users.filter
        (fun v => db.stripeUsers.any fun x => x.userId == v.id && x.customerId == some s.customer)
      = [u]) :
    ∃ su : StripeUserRow, su.userId = u.id ∧
      process_subscription st remote db s =
        .ok { (billing_branch st db s u.id (subscription_defaults_of s su)).1 with
              subscriptions := (subscription_update_or_create s.id
                  (billing_branch st db s u.id (subscription_defaults_of s su)).2
                  (billing_branch st db s u.id (subscription_defaults_of s su)).1.subscriptions).1,
              subscriptionItems := update_subscription_items s.id s.items
                  (billing_branch st db s u.id (subscription_defaults_of s su)).1.subscriptionItems } := by
  obtain ⟨su, hfind, huid, hgoc⟩ := goc_found_user st remote db s.customer u hUser
  refine ⟨su, huid, ?_⟩
  unfold process_subscription
  rw [hgoc]
  dsimp only
  rw [huid]

/-- Every row carrying the upsert key after
`Subscription.objects.update_or_create` received the defaults. -/
theorem subscription_update_or_create_written (subId : String) (d : SubscriptionDefaults)
    (subs : List SubscriptionRow) (r : SubscriptionRow)
    (hr : r ∈ (subscription_update_or_create subId d subs).1)
    (hid : r.subscriptionId = subId) :
    r.stripeUser = d.stripeUser ∧
    (∀ p : Nat × Nat, d.billing = some p →
      r.billingAccountContentType = some p.1 ∧ r.billingAccountObjectId = some p.2) := by
  unfold subscription_update_or_create at hr
  by_cases hex : subs.any fun x => x.subscriptionId == subId
  · rw [if_pos hex] at hr
    obtain ⟨r0, hr0, hmap⟩ := List.mem_map.mp hr
    by_cases h0 : r0.subscriptionId == subId
    · rw [if_pos h0] at hmap
      subst hmap
      refine ⟨rfl, ?_⟩
      intro p hp
      unfold applySubscriptionDefaults
      rw [hp]
      exact ⟨rfl, rfl⟩
    · rw [if_neg h0] at hmap
      subst hmap
      exact absurd (by simp [hid]) h0
  · rw [if_neg hex] at hr
    rcases List.mem_append.mp hr with hmem | hmem
    · have hnone : ¬ (r.subscriptionId == subId) = true := by
        intro hpa
        exact hex (List.any_eq_true.mpr ⟨r, hmem, hpa⟩)
      exact absurd (by simp [hid]) hnone
    · have hnew : r = newSubscriptionRow subId d := List.mem_singleton.mp hmem
      subst hnew
      refine ⟨rfl, ?_⟩
      intro p hp
      unfold newSubscriptionRow
      rw [hp]
      exact ⟨rfl, rfl⟩

/-- The webhook billing branch keeps the legacy stripe-user entry of the
defaults. -/
theorem webhook_billing_branch_stripeUser (st : Settings) (db : DB)
    (s : StripeSubscriptionData) (uid : Nat) (d0 : SubscriptionDefaults) :
    (webhook_billing_branch st db s uid d0).2.stripeUser = d0.stripeUser := by
  unfold webhook_billing_branch
  cases hb : st.billingConfigured with
  | false => rfl
  | true =>
    cases hfb : find_billing_account db (some s.customer) (some uid) with
    | none => rfl
    | some ba => rfl

/-- When billing accounts are configured and one is found, the webhook billing
branch links the defaults to it. -/
theorem webhook_billing_branch_billing_of_found (st : Settings) (db : DB)
    (s : StripeSubscriptionData) (uid : Nat) (d0 : SubscriptionDefaults)
    (hb : st.billingConfigured = true) (ba : BillingAccountRow)
    (hfb : find_billing_account db (some s.customer) (some uid) = some ba) :
    (webhook_billing_branch st db s uid d0).2.billing =
      some (billingContentTypeId, ba.pk) := by
  unfold webhook_billing_branch
  rw [hb, hfb]
  rfl

/-- Characterization of a successful run of the webhook subscription handler
when exactly one stripe-user row carries the remote customer id. -/
theorem handle_subscription_event_run (st : Settings) (db : DB)
    (s : StripeSubscriptionData) (su : StripeUserRow)
    (hSu : db.stripeUsers.filter (fun x => x.customerId == some s.customer) = [su]) :
    handle_customer_subscription_event_data st db s =
      .ok { (webhook_billing_branch st db s su.userId (subscription_defaults_of s su)).1 with
            subscriptions := (subscription_update_or_create s.id
                (webhook_billing_branch st db s su.userId (subscription_defaults_of s su)).2
                (webhook_billing_branch st db s su.userId
                  (subscription_defaults_of s su)).1.subscriptions).1,
            subscriptionItems := update_subscription_items s.id s.items
                (webhook_billing_branch st db s su.userId
                  (subscription_defaults_of s su)).1.subscriptionItems } := by
  unfold handle_customer_subscription_event_data
  rw [hSu]

/-- C1 as amended: every Subscription row written by the synchronizer — the
bulk pull or the webhook subscription handler — carries the legacy
stripe_user owner; when billing accounts are configured and an account is
resolved, the billing pair is populated in addition, so the two owner
references are not mutually exclusive. -/
theorem C1_owner_fields_both_populated (st : Settings) (remote : Remote) (ignoreErr : Bool)
    (s : StripeSubscriptionData) (db dbA dbW : DB) (u : DjangoUser) (su : StripeUserRow)
    (hUser : db.users.filter
        (fun v => db.stripeUsers.any fun x => x.userId == v.id && x.customerId == some s.customer)
      = [u])
    (hRun : stripe_api_update_subscriptions st remote 100 [s] ignoreErr db = .ok dbA)
    (hSu : db.stripeUsers.filter (fun x => x.customerId == some s.customer) = [su])
    (hWeb : handle_customer_subscription_event_data st db s = .ok dbW) :
    (∀ r ∈ dbA.subscriptions, r.subscriptionId = s.id →
      r.stripeUser.isSome = true ∧
      (st.billingConfigured = true →
        ∀ ba : BillingAccountRow,
          find_billing_account db (some s.customer) (some u.id) = some ba →
          r.billingAccountContentType = some billingContentTypeId ∧
          r.billingAccountObjectId = some ba.pk)) ∧
    (∀ r ∈ dbW.subscriptions, r.subscriptionId = s.id →
      r.stripeUser.isSome = true ∧
      (st.billingConfigured = true →
        ∀ ba : BillingAccountRow,
          find_billing_account db (some s.customer) (some su.userId) = some ba →
          r.billingAccountContentType = some billingContentTypeId ∧
          r.billingAccountObjectId = some ba.pk)) := by
  constructor
  · obtain ⟨su1, huid, hproc⟩ := process_subscription_run st remote db s u hUser
    unfold stripe_api_update_subscriptions at hRun
    rw [if_neg (by decide)] at hRun
    simp only [update_subscriptions_go, hproc] at hRun
    have hA : dbA = _ := (Except.ok.inj hRun).symm
    subst hA
    intro r hrmem hrid
    dsimp only at hrmem
    have hr := subscription_update_or_create_written s.id
      (billing_branch st db s u.id (subscription_defaults_of s su1)).2
      (billing_branch st db s u.id (subscription_defaults_of s su1)).1.subscriptions r hrmem hrid
    constructor
    · rw [hr.1, billing_branch_stripeUser]
      rfl
    · intro hb ba hfb
      exact hr.2 (billingContentTypeId, ba.pk)
        (billing_branch_billing_of_found st db s u.id (subscription_defaults_of s su1) hb ba hfb)
  · have hrunW := handle_subscription_event_run st db s su hSu
    rw [hrunW] at hWeb
    have hW : dbW = _ := (Except.ok.inj hWeb).symm
    subst hW
    intro r hrmem hrid
    dsimp only at hrmem
    have hr := subscription_update_or_create_written s.id
      (webhook_billing_branch st db s su.userId (subscription_defaults_of s su)).2
      (webhook_billing_branch st db s su.userId
        (subscription_defaults_of s su)).1.subscriptions r hrmem hrid
    constructor
    · rw [hr.1, webhook_billing_branch_stripeUser]
      rfl
    · intro hb ba hfb
      exact hr.2 (billingContentTypeId, ba.pk)
        (webhook_billing_branch_billing_of_found st db s su.userId
          (subscription_defaults_of s su) hb ba hfb)

/-- Settings for the C1 concrete runs: billing accounts configured. -/
def c1St : Settings := { billingConfigured := true, userCreateMapConfigured := true }

/-- Database for the C1 concrete runs: one user with a stripe-user link and a
billing account already carrying the customer id. -/
def c1Db : DB :=
  { users := [{ id := 1, email := "tester1@example.com" }],
    stripeUsers := [{ userId := 1, customerId := some "cus_tester" }],
    billingAccounts := [{ pk := 1, stripeCustomerId := some "cus_tester",
                          stripeSubscriptionId := none, managerUser := some 1 }],
    subscriptions := [], subscriptionItems := [] }

/-- Remote state for the C1 concrete runs (never consulted). -/
def c1Remote : Remote := { customers := [], freshCustomerId := "cus_x", checkoutSessionId := "cs_x" }

/-- Remote subscription for the C1 concrete runs. -/
def c1Sub : StripeSubscriptionData :=
  { id := "sub_0001", customer := "cus_tester", currentPeriodStart := some 0,
    currentPeriodEnd := some 100, cancelAt := none, cancelAtPeriodEnd := false,
    endedAt := none, status := "active", trialEnd := none, trialStart := none,
    items := [{ id := "si_1", priceId := "price_1", quantity := 1 }] }

/-- C1 counterexample: with billing accounts configured, both the bulk pull
and the webhook subscription handler write a Subscription row that has the
legacy stripe_user owner AND the billing-account pair populated at the same
time, refuting the claimed mutual exclusion. -/
theorem C1_counterexample :
    (stripe_api_update_subscriptions c1St c1Remote 100 [c1Sub] false c1Db).map
        (fun db => db.subscriptions.any fun r =>
          r.stripeUser.isSome && r.billingAccountContentType.isSome &&
            r.billingAccountObjectId.isSome)
      = .ok true ∧
    (handle_customer_subscription_event_data c1St c1Db c1Sub).map
        (fun db => db.subscriptions.any fun r =>
          r.stripeUser.isSome && r.billingAccountContentType.isSome &&
            r.billingAccountObjectId.isSome)
      = .ok true := by
  exact ⟨rfl, rfl⟩

/-- Database produced by the C1 witness bulk-pull run. -/
def c1DbA : DB :=
  (stripe_api_update_subscriptions c1St c1Remote 100 [c1Sub] false c1Db).toOption.getD c1Db

/-- Database produced by the C1 witness webhook-handler run. -/
def c1DbW : DB :=
  (handle_customer_subscription_event_data c1St c1Db c1Sub).toOption.getD c1Db

/-- Fallback row used when reading the written rows of the C1 witness runs. -/
def c1FallbackRow : SubscriptionRow :=
  { subscriptionId := "", stripeUser := none, billingAccountContentType := none,
    billingAccountObjectId := none, periodStart := none, periodEnd := none,
    cancelAt := none, cancelAtPeriodEnd := false, endedAt := none, status := "",
    trialEnd := none, trialStart := none }

/-- The Subscription row written by the C1 witness bulk-pull run. -/
def c1Row : SubscriptionRow := c1DbA.subscriptions.headD c1FallbackRow

/-- The Subscription row written by the C1 witness webhook-handler run. -/
def c1RowW : SubscriptionRow := c1DbW.subscriptions.headD c1FallbackRow

/-- The billing account resolved during the C1 witness runs. -/
def c1Ba : BillingAccountRow :=
  { pk := 1, stripeCustomerId := some "cus_tester", stripeSubscriptionId := none,
    managerUser := some 1 }

/-- Witness for C1: the amended theorem applied at the concrete bulk-pull and
webhook-handler runs, the concrete written rows and the concrete resolved
billing account. -/
theorem C1_witness :
    (c1Row.stripeUser.isSome = true ∧
     c1Row.billingAccountContentType = some billingContentTypeId ∧
     c1Row.billingAccountObjectId = some 1) ∧
    (c1RowW.stripeUser.isSome = true ∧
     c1RowW.billingAccountContentType = some billingContentTypeId ∧
     c1RowW.billingAccountObjectId = some 1) := by
  have h := C1_owner_fields_both_populated c1St c1Remote false c1Sub c1Db c1DbA c1DbW
      { id := 1, email := "tester1@example.com" } { userId := 1, customerId := some "cus_tester" }
      rfl rfl rfl rfl
  have h1 := h.1 c1Row (by decide) rfl
  have h2 := h.2 c1RowW (by decide) rfl
  exact ⟨⟨h1.1, (h1.2 rfl c1Ba rfl).1, (h1.2 rfl c1Ba rfl).2⟩,
         ⟨h2.1, (h2.2 rfl c1Ba rfl).1, (h2.2 rfl c1Ba rfl).2⟩⟩

/-- After the Subscription upsert exactly one row carries the key, provided at
most one did before (the key is the primary key). -/
theorem subscription_update_or_create_count (subId : String) (d : SubscriptionDefaults)
    (subs : List SubscriptionRow)
    (h : (subs.filter fun r => r.subscriptionId == subId).length ≤ 1) :
    ((subscription_update_or_create subId d subs).1.filter
        fun r => r.subscriptionId == subId).length = 1 := by
  unfold subscription_update_or_create
  by_cases hex : subs.any fun x => x.subscriptionId == subId
  · rw [if_pos hex]
    have hlen : ((subs.map fun r => if r.subscriptionId == subId then
          applySubscriptionDefaults d r else r).filter
            fun r => r.subscriptionId == subId).length =
        (subs.filter fun r => r.subscriptionId == subId).length := by
      rw [← List.countP_eq_length_filter, ← List.countP_eq_length_filter, List.countP_map]
      apply List.countP_congr
      intro r hr
      show ((if r.subscriptionId == subId then applySubscriptionDefaults d r
          else r).subscriptionId == subId) = true ↔ (r.subscriptionId == subId) = true
      by_cases h0 : r.subscriptionId == subId
      · rw [if_pos h0]
        exact Iff.rfl
      · rw [if_neg h0]
    rw [hlen]
    have hpos : 0 < (subs.filter fun r => r.subscriptionId == subId).length := by
      rw [← List.countP_eq_length_filter, List.countP_pos_iff]
      obtain ⟨x, hxmem, hxeq⟩ := List.any_eq_true.mp hex
      exact ⟨x, hxmem, hxeq⟩
    omega
  · rw [if_neg hex]
    rw [List.filter_append]
    have h1 : subs.filter (fun r => r.subscriptionId == subId) = [] := by
      rw [List.filter_eq_nil_iff]
      intro a ha hpa
      exact hex (List.any_eq_true.mpr ⟨a, ha, hpa⟩)
    rw [h1]
    simp [newSubscriptionRow]

/-- The item-upsert fold appends one fresh row per remote item when no
accumulated row carries any of the remote item ids. -/
theorem items_fold_appends (subId : String) (items : List StripeItemData) :
    ∀ acc : List SubscriptionItemRow,
      (∀ r ∈ acc, r.subItemId ∉ items.map StripeItemData.id) →
      (items.map StripeItemData.id).Nodup →
      items.foldl
          (fun a it => subscription_item_update_or_create it.id subId it.priceId it.quantity a)
          acc =
        acc ++ items.map (fun it =>
          { subItemId := it.id, subscriptionId := subId, priceId := it.priceId,
            quantity := it.quantity }) := by
  induction items with
  | nil => intro acc _ _; simp
  | cons it rest ih =>
    intro acc hacc hnodup
    rw [List.foldl_cons]
    have hany : (acc.any fun r => r.subItemId == it.id) = false := by
      rw [List.any_eq_false]
      intro r hr
      have hne := hacc r hr
      simp only [List.map_cons, List.mem_cons] at hne
      intro heq
      exact hne (Or.inl (by simpa using heq))
    have hstep : subscription_item_update_or_create it.id subId it.priceId it.quantity acc =
        acc ++ [{ subItemId := it.id, subscriptionId := subId, priceId := it.priceId,
                  quantity := it.quantity }] := by
      unfold subscription_item_update_or_create
      rw [hany]
      rfl
    rw [hstep]
    rw [List.map_cons] at hnodup
    have hcons := List.nodup_cons.mp hnodup
    have harg1 : ∀ r, r ∈ acc ++ [({ subItemId := it.id, subscriptionId := subId, priceId := it.priceId, quantity := it.quantity } : SubscriptionItemRow)] → r.subItemId ∉ rest.map StripeItemData.id := by
      intro r hr
      rcases List.mem_append.mp hr with hmem | hmem
      · have hne := hacc r hmem
        simp only [List.map_cons, List.mem_cons] at hne
        intro hmem2
        exact hne (Or.inr hmem2)
      · have hrq : r = { subItemId := it.id, subscriptionId := subId, priceId := it.priceId,
                         quantity := it.quantity } := List.mem_singleton.mp hmem
        subst hrq
        exact hcons.1
    have hih := ih (acc ++ [({ subItemId := it.id, subscriptionId := subId, priceId := it.priceId, quantity := it.quantity } : SubscriptionItemRow)]) harg1 hcons.2
    rw [hih]
    simp

/-- Replacing the line items of a subscription yields exactly the remote item
list appended to the untouched rows of other subscriptions, provided remote
item ids are distinct and no row of another subscription carries one of
them. -/
theorem update_subscription_items_eq (subId : String) (items : List StripeItemData)
    (rows : List SubscriptionItemRow)
    (hnodup : (items.map StripeItemData.id).Nodup)
    (hforeign : ∀ r ∈ rows, r.subItemId ∈ items.map StripeItemData.id →
      r.subscriptionId = subId) :
    update_subscription_items subId items rows =
      (rows.filter fun r => !(r.subscriptionId == subId)) ++
        items.map (fun it =>
          { subItemId := it.id, subscriptionId := subId, priceId := it.priceId,
            quantity := it.quantity }) := by
  unfold update_subscription_items
  apply items_fold_appends subId items _ _ hnodup
  intro r hr hmem
  have hrr := List.mem_filter.mp hr
  have hsub := hforeign r hrr.1 hmem
  have := hrr.2
  rw [hsub] at this
  simp at this

/-- Characterization of one successful single-subscription sync run: the
stripe-user and user tables are untouched, the Subscription row for the key
is unique, and the item rows for the key are exactly the remote list. -/
theorem process_single_run (st : Settings) (remote : Remote) (db : DB)
    (s : StripeSubscriptionData) (u : DjangoUser)
    (hUser : db.users.filter
        (fun v => db.stripeUsers.any fun x => x.userId == v.id && x.customerId == some s.customer)
      = [u])
    (hSub : (db.subscriptions.filter fun r => r.subscriptionId == s.id).length ≤ 1)
    (hnodup : (s.items.map StripeItemData.id).Nodup)
    (hforeign : ∀ r ∈ db.subscriptionItems, r.subItemId ∈ s.items.map StripeItemData.id →
      r.subscriptionId = s.id) :
    ∃ dbA : DB, process_subscription st remote db s = .ok dbA ∧
      dbA.users = db.users ∧
      dbA.stripeUsers = db.stripeUsers ∧
      (dbA.subscriptions.filter fun r => r.subscriptionId == s.id).length = 1 ∧
      dbA.subscriptionItems =
        (db.subscriptionItems.filter fun r => !(r.subscriptionId == s.id)) ++
          s.items.map (fun it =>
            { subItemId := it.id, subscriptionId := s.id, priceId := it.priceId,
              quantity := it.quantity }) := by
  obtain ⟨su, huid, hproc⟩ := process_subscription_run st remote db s u hUser
  obtain ⟨hfu, hfsu, hfsubs, hfitems⟩ :=
    billing_branch_frame st db s u.id (subscription_defaults_of s su)
  refine ⟨_, hproc, hfu, hfsu, ?_, ?_⟩
  · dsimp only
    rw [hfsubs]
    exact subscription_update_or_create_count s.id _ db.subscriptions hSub
  · dsimp only
    rw [hfitems]
    exact update_subscription_items_eq s.id s.items db.subscriptionItems hnodup hforeign

/-- C2: running the subscription sync twice with identical input data for the
same remote subscription id leaves exactly one local Subscription row for
that id, and the SubscriptionItem set for that subscription equals the
remote item list, with no duplicate and no stale items.  (Hypotheses: the
stripe user resolves to the unique linked Django user, the primary-key
uniqueness of subscription and item ids holds in the initial database, and
remote item ids are distinct, as Stripe guarantees.) -/
theorem C2_sync_twice_idempotent (st : Settings) (remote : Remote) (ignoreErr : Bool)
    (s : StripeSubscriptionData) (db dbA dbB : DB) (u : DjangoUser)
    (hUser : db.users.filter
        (fun v => db.stripeUsers.any fun x => x.userId == v.id && x.customerId == some s.customer)
      = [u])
    (hSub : (db.subscriptions.filter fun r => r.subscriptionId == s.id).length ≤ 1)
    (hnodup : (s.items.map StripeItemData.id).Nodup)
    (hforeign : ∀ r ∈ db.subscriptionItems, r.subItemId ∈ s.items.map StripeItemData.id →
      r.subscriptionId = s.id)
    (h1 : stripe_api_update_subscriptions st remote 100 [s] ignoreErr db = .ok dbA)
    (h2 : stripe_api_update_subscriptions st remote 100 [s] ignoreErr dbA = .ok dbB) :
    (dbB.subscriptions.filter fun r => r.subscriptionId == s.id).length = 1 ∧
    dbB.subscriptionItems.filter (fun r => r.subscriptionId == s.id) =
      s.items.map (fun it =>
        { subItemId := it.id, subscriptionId := s.id, priceId := it.priceId,
          quantity := it.quantity }) := by
  obtain ⟨db1, hp1, hu1, hsu1, hcount1, hitems1⟩ :=
    process_single_run st remote db s u hUser hSub hnodup hforeign
  have hA : dbA = db1 := by
    unfold stripe_api_update_subscriptions at h1
    rw [if_neg (by decide)] at h1
    simp only [update_subscriptions_go, hp1] at h1
    exact (Except.ok.inj h1).symm
  subst hA
  have hUser2 : dbA.users.filter
      (fun v => dbA.stripeUsers.any fun x => x.userId == v.id && x.customerId == some s.customer)
      = [u] := by
    rw [hu1, hsu1]
    exact hUser
  have hforeign2 : ∀ r ∈ dbA.subscriptionItems,
      r.subItemId ∈ s.items.map StripeItemData.id → r.subscriptionId = s.id := by
    intro r hr hmem
    rw [hitems1] at hr
    rcases List.mem_append.mp hr with hmemf | hmemm
    · have hf := List.mem_filter.mp hmemf
      have hs := hforeign r hf.1 hmem
      have h2a := hf.2
      rw [hs] at h2a
      simp at h2a
    · obtain ⟨it, _, heq⟩ := List.mem_map.mp hmemm
      subst heq
      rfl
  obtain ⟨db2, hp2, hu2, hsu2, hcount2, hitems2⟩ :=
    process_single_run st remote dbA s u hUser2 hcount1.le hnodup hforeign2
  have hB : dbB = db2 := by
    unfold stripe_api_update_subscriptions at h2
    rw [if_neg (by decide)] at h2
    simp only [update_subscriptions_go, hp2] at h2
    exact (Except.ok.inj h2).symm
  subst hB
  refine ⟨hcount2, ?_⟩
  rw [hitems2, List.filter_append]
  have hleft : ((dbA.subscriptionItems.filter fun r => !(r.subscriptionId == s.id)).filter
      fun r => r.subscriptionId == s.id) = [] := by
    rw [List.filter_eq_nil_iff]
    intro a ha hpa
    have hf := List.mem_filter.mp ha
    have h2a := hf.2
    rw [hpa] at h2a
    simp at h2a
  rw [hleft, List.nil_append]
  apply List.filter_eq_self.mpr
  intro a ha
  obtain ⟨it, _, heq⟩ := List.mem_map.mp ha
  subst heq
  simp

/-- Settings for the C2 witness run (legacy mode). -/
def c2St : Settings := { billingConfigured := false, userCreateMapConfigured := true }

/-- Initial database for the C2 witness run. -/
def c2Db0 : DB :=
  { users := [{ id := 1, email := "t@example.com" }],
    stripeUsers := [{ userId := 1, customerId := some "cus_t" }],
    billingAccounts := [], subscriptions := [], subscriptionItems := [] }

/-- Remote state for the C2 witness run (never consulted). -/
def c2Remote : Remote := { customers := [], freshCustomerId := "cus_x", checkoutSessionId := "cs_x" }

/-- Remote subscription for the C2 witness run, with one line item. -/
def c2Sub : StripeSubscriptionData :=
  { id := "sub_1", customer := "cus_t", currentPeriodStart := some 0,
    currentPeriodEnd := some 10, cancelAt := none, cancelAtPeriodEnd := false,
    endedAt := none, status := "active", trialEnd := none, trialStart := none,
    items := [{ id := "si_1", priceId := "price_1", quantity := 2 }] }

/-- Database after the first C2 witness run. -/
def c2DbA : DB :=
  (stripe_api_update_subscriptions c2St c2Remote 100 [c2Sub] false c2Db0).toOption.getD c2Db0

/-- Database after the second C2 witness run. -/
def c2DbB : DB :=
  (stripe_api_update_subscriptions c2St c2Remote 100 [c2Sub] false c2DbA).toOption.getD c2DbA

/-- Witness for C2 at the concrete double run. -/
theorem C2_witness :
    (c2DbB.subscriptions.filter fun r => r.subscriptionId == c2Sub.id).length = 1 ∧
    c2DbB.subscriptionItems.filter (fun r => r.subscriptionId == c2Sub.id) =
      c2Sub.items.map (fun it =>
        { subItemId := it.id, subscriptionId := c2Sub.id, priceId := it.priceId,
          quantity := it.quantity }) :=
  C2_sync_twice_idempotent c2St c2Remote false c2Sub c2Db0 c2DbA c2DbB
    { id := 1, email := "t@example.com" } rfl (by decide) (by decide) (by decide) rfl rfl

end DrfStripe
